import Mathlib

/-!
Verification of the ucode digest module (src/org/lib/digest.c).

The module exposes digest functions (md5, sha1, sha256, and optionally
md2, md4, sha384, sha512, each with a _file variant) to the ucode host
language.  Two generic dispatchers, uc_digest_calc_data and
uc_digest_calc_file, validate the single host-value argument and invoke
an algorithm primitive from the external hashing library.

Host values are modelled as a tagged union; byte buffers are lists of
Nat (each entry a byte value).  The external hashing primitives are
modelled as functions from byte lists to an optional digest string
(NULL return in C is none).  Passing a ucode string buffer to a C
function expecting a NUL-terminated string exposes only the bytes
before the first zero byte; that conversion is the function cstring
below (ucode string buffers are NUL-terminated internally while also
carrying an explicit length).
-/

/-- Tags of the host value union (uc_type_t of the ucode runtime, modelled
from the spec: the string tag carries a byte buffer with explicit length;
every other tag is opaque to this module). -/
inductive uc_type where
  | UC_NULL
  | UC_BOOLEAN
  | UC_INTEGER
  | UC_DOUBLE
  | UC_STRING
  | UC_ARRAY
  | UC_OBJECT
deriving DecidableEq, Repr

/-- Host value (uc_value_t, modelled from the spec: a tagged union; the
string variant carries a byte buffer and an explicit length, here the
list and its length; a NULL uc_value pointer behaves as the null value).
Payloads of non-string variants are irrelevant to this module. -/
inductive uc_value where
  | vnull
  | vboolean (b : Bool)
  | vinteger (n : Int)
  | vdouble
  | varray
  | vobject
  | vstring (bytes : List Nat)
deriving DecidableEq, Repr

/-- Modelled from the spec: ucv_type returns the tag of a host value
(a NULL pointer is reported as UC_NULL by the ucode runtime). -/
def ucv_type : uc_value → uc_type
  | .vnull => .UC_NULL
  | .vboolean _ => .UC_BOOLEAN
  | .vinteger _ => .UC_INTEGER
  | .vdouble => .UC_DOUBLE
  | .varray => .UC_ARRAY
  | .vobject => .UC_OBJECT
  | .vstring _ => .UC_STRING

/-- Modelled from the spec: ucv_string_get returns the byte buffer of a
string value (for other values it returns NULL, never dereferenced here
because both dispatchers check the tag first). -/
def ucv_string_get : uc_value → List Nat
  | .vstring b => b
  | _ => []

/-- Modelled from the spec: ucv_string_length returns the explicit byte
length of a string value, 0 otherwise. -/
def ucv_string_length : uc_value → Nat
  | .vstring b => b.length
  | _ => 0

/-- Reading a byte buffer as a NUL-terminated C string: only the bytes
before the first zero byte are visible. -/
def cstring (bytes : List Nat) : List Nat :=
  bytes.takeWhile (fun b => b != 0)

/-- Modelled from the spec: ucv_string_new builds a fresh host string
value from a NUL-terminated C character buffer (the length is taken by
scanning for the terminator). -/
def ucv_string_new (buf : List Nat) : uc_value :=
  .vstring (cstring buf)

/-- Type of an external compute-over-bytes primitive (MD5Data and
friends): receives the data bytes (the buffer together with its explicit
length, encoded here as the list itself) and returns the digest written
as a NUL-terminated hex character string, or NULL (none) on failure. -/
def DataPrim : Type := List Nat → Option (List Nat)

/-- Type of an external compute-over-path primitive (MD5File and
friends): receives a NUL-terminated path string and returns the digest
character string, or NULL (none) on any open, read or processing
failure. -/
def FilePrim : Type := List Nat → Option (List Nat)

/-- Embedding of uc_digest_calc_data (digest.c lines 37-49): reject any
non-string argument with NULL, otherwise invoke the primitive on the
buffer and explicit length of the string and wrap a successful digest in
a fresh host string. -/
def uc_digest_calc_data (str : uc_value) (fn : DataPrim) : Option uc_value :=
  if ucv_type str ≠ uc_type.UC_STRING then
    none
  else
    match fn ((ucv_string_get str).take (ucv_string_length str)) with
    | some buf => some (ucv_string_new buf)
    | none => none

/-- Embedding of uc_digest_calc_file (digest.c lines 51-63): reject any
non-string argument with NULL, otherwise invoke the primitive on the
path buffer; the primitive has no length parameter, so it sees the
buffer as a NUL-terminated C string (cstring). -/
def uc_digest_calc_file (path : uc_value) (fn : FilePrim) : Option uc_value :=
  if ucv_type path ≠ uc_type.UC_STRING then
    none
  else
    match fn (cstring (ucv_string_get path)) with
    | some buf => some (ucv_string_new buf)
    | none => none

/-- Modelled from the spec: uc_fn_arg fetches the i-th call argument; a
missing argument yields a NULL host value (tag UC_NULL). -/
def uc_fn_arg (args : List uc_value) (i : Nat) : uc_value :=
  (args.get? i).getD uc_value.vnull

/-- External hashing library (libmd): one compute-over-bytes and one
compute-over-path primitive per algorithm, bound at build time.  The
module treats each as a black box. -/
structure DigestLib where
  MD5Data : DataPrim
  SHA1Data : DataPrim
  SHA256Data : DataPrim
  MD2Data : DataPrim
  MD4Data : DataPrim
  SHA384Data : DataPrim
  SHA512Data : DataPrim
  MD5File : FilePrim
  SHA1File : FilePrim
  SHA256File : FilePrim
  MD2File : FilePrim
  MD4File : FilePrim
  SHA384File : FilePrim
  SHA512File : FilePrim

/-- Embedding of uc_digest_md5 (digest.c lines 81-85). -/
def uc_digest_md5 (lib : DigestLib) (args : List uc_value) : Option uc_value :=
  uc_digest_calc_data (uc_fn_arg args 0) lib.MD5Data

/-- Embedding of uc_digest_sha1 (digest.c lines 103-107). -/
def uc_digest_sha1 (lib : DigestLib) (args : List uc_value) : Option uc_value :=
  uc_digest_calc_data (uc_fn_arg args 0) lib.SHA1Data

/-- Embedding of uc_digest_sha256 (digest.c lines 125-129). -/
def uc_digest_sha256 (lib : DigestLib) (args : List uc_value) : Option uc_value :=
  uc_digest_calc_data (uc_fn_arg args 0) lib.SHA256Data

/-- Embedding of uc_digest_md2 (digest.c lines 148-152, extended tier). -/
def uc_digest_md2 (lib : DigestLib) (args : List uc_value) : Option uc_value :=
  uc_digest_calc_data (uc_fn_arg args 0) lib.MD2Data

/-- Embedding of uc_digest_md4 (digest.c lines 170-174, extended tier). -/
def uc_digest_md4 (lib : DigestLib) (args : List uc_value) : Option uc_value :=
  uc_digest_calc_data (uc_fn_arg args 0) lib.MD4Data

/-- Embedding of uc_digest_sha384 (digest.c lines 192-196, extended tier). -/
def uc_digest_sha384 (lib : DigestLib) (args : List uc_value) : Option uc_value :=
  uc_digest_calc_data (uc_fn_arg args 0) lib.SHA384Data

/-- Embedding of uc_digest_sha512 (digest.c lines 214-218, extended tier). -/
def uc_digest_sha512 (lib : DigestLib) (args : List uc_value) : Option uc_value :=
  uc_digest_calc_data (uc_fn_arg args 0) lib.SHA512Data

/-- Embedding of uc_digest_md5_file (digest.c lines 233-237). -/
def uc_digest_md5_file (lib : DigestLib) (args : List uc_value) : Option uc_value :=
  uc_digest_calc_file (uc_fn_arg args 0) lib.MD5File

/-- Embedding of uc_digest_sha1_file (digest.c lines 251-255). -/
def uc_digest_sha1_file (lib : DigestLib) (args : List uc_value) : Option uc_value :=
  uc_digest_calc_file (uc_fn_arg args 0) lib.SHA1File

/-- Embedding of uc_digest_sha256_file (digest.c lines 269-273). -/
def uc_digest_sha256_file (lib : DigestLib) (args : List uc_value) : Option uc_value :=
  uc_digest_calc_file (uc_fn_arg args 0) lib.SHA256File

/-- Embedding of uc_digest_md2_file (digest.c lines 288-292, extended tier). -/
def uc_digest_md2_file (lib : DigestLib) (args : List uc_value) : Option uc_value :=
  uc_digest_calc_file (uc_fn_arg args 0) lib.MD2File

/-- Embedding of uc_digest_md4_file (digest.c lines 306-310, extended tier). -/
def uc_digest_md4_file (lib : DigestLib) (args : List uc_value) : Option uc_value :=
  uc_digest_calc_file (uc_fn_arg args 0) lib.MD4File

/-- Embedding of uc_digest_sha384_file (digest.c lines 324-328, extended tier). -/
def uc_digest_sha384_file (lib : DigestLib) (args : List uc_value) : Option uc_value :=
  uc_digest_calc_file (uc_fn_arg args 0) lib.SHA384File

/-- Embedding of uc_digest_sha512_file (digest.c lines 342-346, extended tier). -/
def uc_digest_sha512_file (lib : DigestLib) (args : List uc_value) : Option uc_value :=
  uc_digest_calc_file (uc_fn_arg args 0) lib.SHA512File

/-- Identifier of one exposed handler function of the module. -/
inductive FnId where
  | md5 | sha1 | sha256
  | md5_file | sha1_file | sha256_file
  | md2 | md4 | sha384 | sha512
  | md2_file | md4_file | sha384_file | sha512_file
deriving DecidableEq, Repr

/-- Semantics of each handler: the C function the identifier names. -/
def fn_impl (lib : DigestLib) : FnId → List uc_value → Option uc_value
  | .md5 => uc_digest_md5 lib
  | .sha1 => uc_digest_sha1 lib
  | .sha256 => uc_digest_sha256 lib
  | .md5_file => uc_digest_md5_file lib
  | .sha1_file => uc_digest_sha1_file lib
  | .sha256_file => uc_digest_sha256_file lib
  | .md2 => uc_digest_md2 lib
  | .md4 => uc_digest_md4 lib
  | .sha384 => uc_digest_sha384 lib
  | .sha512 => uc_digest_sha512 lib
  | .md2_file => uc_digest_md2_file lib
  | .md4_file => uc_digest_md4_file lib
  | .sha384_file => uc_digest_sha384_file lib
  | .sha512_file => uc_digest_sha512_file lib

/-- Embedding of the global_fns table (digest.c lines 350-367),
parameterised by the HAVE_DIGEST_EXTENDED build option: six base
entries always, eight extended entries appended when the option is
enabled. -/
def global_fns (extended : Bool) : List (String × FnId) :=
  [("md5", .md5), ("sha1", .sha1), ("sha256", .sha256),
   ("md5_file", .md5_file), ("sha1_file", .sha1_file),
   ("sha256_file", .sha256_file)]
  ++ (if extended then
       [("md2", .md2), ("md4", .md4), ("sha384", .sha384),
        ("sha512", .sha512), ("md2_file", .md2_file),
        ("md4_file", .md4_file), ("sha384_file", .sha384_file),
        ("sha512_file", .sha512_file)]
     else [])

/-- Modelled from the spec: uc_function_list_register walks the table in
order and registers each entry once into the scope; the scope is the
ordered list of registrations performed. -/
def uc_function_list_register (scope : List (String × FnId))
    (fns : List (String × FnId)) : List (String × FnId) :=
  scope ++ fns

/-- Embedding of uc_module_init (digest.c lines 369-372): the ordered
registrations performed at module load into an initially empty scope. -/
def uc_module_init (extended : Bool) : List (String × FnId) :=
  uc_function_list_register [] (global_fns extended)

/-- Names of the mandatory tier. -/
def baseNames : List String :=
  ["md5", "sha1", "sha256", "md5_file", "sha1_file", "sha256_file"]

/-- Names of the extended tier. -/
def extNames : List String :=
  ["md2", "md4", "sha384", "sha512",
   "md2_file", "md4_file", "sha384_file", "sha512_file"]

/-- Truncation to a 32-bit word. -/
def m32 (x : Nat) : Nat := x % 4294967296

/-- Bitwise complement of a 32-bit word. -/
def not32 (x : Nat) : Nat := x ^^^ 4294967295

/-- Left rotation of a 32-bit word by n bits (0 < n < 32). -/
def rotl32 (x n : Nat) : Nat :=
  ((x <<< n) ||| (x >>> (32 - n))) % 4294967296

/-- Little-endian byte decomposition of n into k bytes. -/
def lebytes : Nat → Nat → List Nat
  | _, 0 => []
  | n, k + 1 => (n % 256) :: lebytes (n / 256) k

/-- Little-endian word value of a byte list. -/
def leWord (bs : List Nat) : Nat :=
  bs.foldr (fun b acc => acc * 256 + b) 0

/-- Sine-derived round constants of MD5 (RFC 1321). -/
def md5K : List Nat :=
  [0xd76aa478, 0xe8c7b756, 0x242070db, 0xc1bdceee,
   0xf57c0faf, 0x4787c62a, 0xa8304613, 0xfd469501,
   0x698098d8, 0x8b44f7af, 0xffff5bb1, 0x895cd7be,
   0x6b901122, 0xfd987193, 0xa679438e, 0x49b40821,
   0xf61e2562, 0xc040b340, 0x265e5a51, 0xe9b6c7aa,
   0xd62f105d, 0x02441453, 0xd8a1e681, 0xe7d3fbc8,
   0x21e1cde6, 0xc33707d6, 0xf4d50d87, 0x455a14ed,
   0xa9e3e905, 0xfcefa3f8, 0x676f02d9, 0x8d2a4c8a,
   0xfffa3942, 0x8771f681, 0x6d9d6122, 0xfde5380c,
   0xa4beea44, 0x4bdecfa9, 0xf6bb4b60, 0xbebfbc70,
   0x289b7ec6, 0xeaa127fa, 0xd4ef3085, 0x04881d05,
   0xd9d4d039, 0xe6db99e5, 0x1fa27cf8, 0xc4ac5665,
   0xf4292244, 0x432aff97, 0xab9423a7, 0xfc93a039,
   0x655b59c3, 0x8f0ccc92, 0xffeff47d, 0x85845dd1,
   0x6fa87e4f, 0xfe2ce6e0, 0xa3014314, 0x4e0811a1,
   0xf7537e82, 0xbd3af235, 0x2ad7d2bb, 0xeb86d391]

/-- Per-round left-rotation amounts of MD5 (RFC 1321). -/
def md5S : List Nat :=
  [7, 12, 17, 22, 7, 12, 17, 22, 7, 12, 17, 22, 7, 12, 17, 22,
   5, 9, 14, 20, 5, 9, 14, 20, 5, 9, 14, 20, 5, 9, 14, 20,
   4, 11, 16, 23, 4, 11, 16, 23, 4, 11, 16, 23, 4, 11, 16, 23,
   6, 10, 15, 21, 6, 10, 15, 21, 6, 10, 15, 21, 6, 10, 15, 21]

/-- MD5 message padding: a 0x80 byte, zero bytes up to 56 mod 64, then
the bit length as a 64-bit little-endian quantity. -/
def md5pad (msg : List Nat) : List Nat :=
  let len := msg.length
  let zeros := (55 + 64 - len % 64) % 64
  msg ++ [128] ++ List.replicate zeros 0 ++ lebytes ((len * 8) % 2 ^ 64) 8

/-- One of the 64 MD5 rounds, acting on the state (a, b, c, d) with the
message schedule M. -/
def md5round (M : Nat → Nat) (st : Nat × Nat × Nat × Nat) (i : Nat) :
    Nat × Nat × Nat × Nat :=
  let (a, b, c, d) := st
  let fg : Nat × Nat :=
    if i < 16 then ((b &&& c) ||| (not32 b &&& d), i)
    else if i < 32 then ((d &&& b) ||| (not32 d &&& c), (5 * i + 1) % 16)
    else if i < 48 then (b ^^^ c ^^^ d, (3 * i + 5) % 16)
    else (c ^^^ (b ||| not32 d), (7 * i) % 16)
  let f := m32 (fg.1 + a + md5K.getD i 0 + M fg.2)
  (d, m32 (b + rotl32 f (md5S.getD i 0)), b, c)

/-- Processing of one 64-byte block of the padded message. -/
def md5step (padded : List Nat) (st : Nat × Nat × Nat × Nat) (blk : Nat) :
    Nat × Nat × Nat × Nat :=
  let M : Nat → Nat := fun g => leWord ((padded.drop (64 * blk + 4 * g)).take 4)
  let r := (List.range 64).foldl (md5round M) st
  (m32 (st.1 + r.1), m32 (st.2.1 + r.2.1), m32 (st.2.2.1 + r.2.2.1),
   m32 (st.2.2.2 + r.2.2.2))

/-- The 16-byte MD5 digest of a byte message (RFC 1321). -/
def md5bytes (msg : List Nat) : List Nat :=
  let padded := md5pad msg
  let r := (List.range (padded.length / 64)).foldl (md5step padded)
    (0x67452301, 0xefcdab89, 0x98badcfe, 0x10325476)
  lebytes r.1 4 ++ lebytes r.2.1 4 ++ lebytes r.2.2.1 4 ++ lebytes r.2.2.2 4

/-- Character codes of the lowercase hexadecimal alphabet. -/
def hexAlphabet : List Nat :=
  [48, 49, 50, 51, 52, 53, 54, 55, 56, 57, 97, 98, 99, 100, 101, 102]

/-- Two lowercase hex character codes of one byte. -/
def byteHex (b : Nat) : List Nat :=
  [hexAlphabet.getD (b / 16 % 16) 0, hexAlphabet.getD (b % 16) 0]

/-- Lowercase hex character string of a byte list. -/
def hexString (bs : List Nat) : List Nat :=
  (bs.map byteHex).flatten

/-- Byte codes of an ASCII string literal. -/
def asciiBytes (s : String) : List Nat :=
  s.data.map Char.toNat

/-- Modelled from the spec: the external MD5Data primitive of the hashing
library (not under src), treated by the spec as a trusted, correct MD5
implementation; it computes the MD5 digest of the given bytes, writes it
as a lowercase hex string into the caller buffer and returns that buffer
(it never fails when a buffer is supplied). -/
def MD5Data_model : DataPrim :=
  fun data => some (hexString (md5bytes data))

/-- Modelled from the spec: a compute-over-path primitive obtained from a
filesystem (a partial map from NUL-terminated path strings to file
contents) and a compute-over-bytes primitive of the same algorithm: the
primitive opens the file, streams its contents through the algorithm and
fails generically when the file cannot be opened or read. -/
def filePrimOf (fs : List Nat → Option (List Nat)) (dataFn : DataPrim) :
    FilePrim :=
  fun path =>
    match fs path with
    | some contents => dataFn contents
    | none => none

/-- Shape of a well-formed digest result: exactly 2 n lowercase hex
characters for an algorithm with an n-byte native digest. -/
def IsHexDigest (n : Nat) (s : List Nat) : Prop :=
  s.length = 2 * n ∧ ∀ c ∈ s, c ∈ hexAlphabet

/-- Concrete instance of the external hashing library used by witnesses:
the MD5 data primitive is the RFC 1321 model above; the remaining
primitives play no role in any stated theorem and are set to the
always-failing function. -/
def libmd_model : DigestLib where
  MD5Data := MD5Data_model
  SHA1Data := fun _ => none
  SHA256Data := fun _ => none
  MD2Data := fun _ => none
  MD4Data := fun _ => none
  SHA384Data := fun _ => none
  SHA512Data := fun _ => none
  MD5File := fun _ => none
  SHA1File := fun _ => none
  SHA256File := fun _ => none
  MD2File := fun _ => none
  MD4File := fun _ => none
  SHA384File := fun _ => none
  SHA512File := fun _ => none

/-- Claim C1: a host value without the string tag is rejected by both
dispatchers with the NULL result; the result is none for every primitive
whatsoever, so no primitive is invoked and no computation happens. -/
theorem C1_nonstring_rejected (v : uc_value) (fn : DataPrim) (gn : FilePrim)
    (h : ucv_type v ≠ uc_type.UC_STRING) :
    uc_digest_calc_data v fn = none ∧ uc_digest_calc_file v gn = none := by
  constructor
  · unfold uc_digest_calc_data
    rw [if_pos h]
  · unfold uc_digest_calc_file
    rw [if_pos h]

/-- Witness for C1 at the host integer 123 (the spec scenario md5(123)). -/
theorem C1_nonstring_rejected_witness :
    uc_digest_calc_data (uc_value.vinteger 123) MD5Data_model = none ∧
    uc_digest_calc_file (uc_value.vinteger 123) MD5Data_model = none :=
  C1_nonstring_rejected (uc_value.vinteger 123) MD5Data_model MD5Data_model
    (by decide)

/-- Claim C2: on a string-tagged value the data dispatcher invokes the
primitive on exactly the carried buffer bytes, all of them and no more
(the explicit length, not a NUL scan, delimits the data, so embedded
zero bytes are hashed); in particular the empty string is valid input
and the primitive is invoked on the empty byte sequence. -/
theorem C2_data_exact_bytes (b : List Nat) (fn : DataPrim) :
    uc_digest_calc_data (uc_value.vstring b) fn
      = Option.map ucv_string_new (fn b) ∧
    uc_digest_calc_data (uc_value.vstring []) fn
      = Option.map ucv_string_new (fn []) := by
  have key : ∀ c : List Nat, uc_digest_calc_data (uc_value.vstring c) fn
      = Option.map ucv_string_new (fn c) := by
    intro c
    unfold uc_digest_calc_data
    rw [if_neg (by simp [ucv_type])]
    simp only [ucv_string_get, ucv_string_length, List.take_length]
    cases fn c <;> rfl
  exact ⟨key b, key []⟩

/-- Claim C3: when the filesystem resolves the (NUL-terminated) path to
contents s, dispatching the file variant on the path equals dispatching
the data variant on s, for the same algorithm. -/
theorem C3_data_file_consistency (fs : List Nat → Option (List Nat))
    (dataFn : DataPrim) (pb s : List Nat)
    (h : fs (cstring pb) = some s) :
    uc_digest_calc_file (uc_value.vstring pb) (filePrimOf fs dataFn)
      = uc_digest_calc_data (uc_value.vstring s) dataFn := by
  unfold uc_digest_calc_file uc_digest_calc_data filePrimOf
  rw [if_neg (by simp [ucv_type]), if_neg (by simp [ucv_type])]
  simp only [ucv_string_get, ucv_string_length, List.take_length, h]

/-- Witness for C3: a one-file filesystem mapping path p to contents F,
digested with the MD5 primitive model. -/
theorem C3_data_file_consistency_witness :
    uc_digest_calc_file (uc_value.vstring [112])
        (filePrimOf (fun q => if q = [112] then some [70] else none)
          MD5Data_model)
      = uc_digest_calc_data (uc_value.vstring [70]) MD5Data_model :=
  C3_data_file_consistency (fun q => if q = [112] then some [70] else none)
    MD5Data_model [112] [70] (by decide)

/-- Claim C4: whenever the file primitive reports failure on the path it
was handed, for any cause, the file dispatcher returns NULL; the result
carries no distinction of cause and is never a partially computed
digest. -/
theorem C4_file_failure_absorbed (v : uc_value) (fn : FilePrim)
    (hstr : ucv_type v = uc_type.UC_STRING)
    (hfail : fn (cstring (ucv_string_get v)) = none) :
    uc_digest_calc_file v fn = none := by
  unfold uc_digest_calc_file
  rw [if_neg (by simp [hstr]), hfail]

/-- Witness for C4 at the spec scenario of a nonexistent path whose
primitive fails. -/
theorem C4_file_failure_absorbed_witness :
    uc_digest_calc_file (uc_value.vstring (asciiBytes "/nonexistent/path"))
      (fun _ => none) = none :=
  C4_file_failure_absorbed
    (uc_value.vstring (asciiBytes "/nonexistent/path")) (fun _ => none)
    (by decide) rfl

/-- Claim C5: two invocations of the data dispatcher with the same value
and the same primitive produce the same result; the embedding is a pure
function of its two arguments because the C function keeps all state in
a stack-local buffer and touches nothing shared between calls. -/
theorem C5_deterministic (s : uc_value) (fn : DataPrim)
    (r r' : Option uc_value)
    (h1 : uc_digest_calc_data s fn = r)
    (h2 : uc_digest_calc_data s fn = r') : r = r' := by
  rw [← h1, ← h2]

/-- Witness for C5 at a concrete string and primitive. -/
theorem C5_deterministic_witness :
    some (ucv_string_new [97]) = some (ucv_string_new [97]) :=
  C5_deterministic (uc_value.vstring []) (fun _ => some [97])
    (some (ucv_string_new [97])) (some (ucv_string_new [97])) rfl rfl

theorem lebytes_length (n k : Nat) : (lebytes n k).length = k := by
  induction k generalizing n with
  | zero => rfl
  | succ k ih => simp [lebytes, ih]

theorem md5bytes_length (msg : List Nat) : (md5bytes msg).length = 16 := by
  unfold md5bytes
  simp [lebytes_length]

theorem hexString_length (bs : List Nat) :
    (hexString bs).length = 2 * bs.length := by
  induction bs with
  | nil => rfl
  | cons a t ih =>
    unfold hexString at ih ⊢
    simp only [List.map_cons, List.flatten_cons, List.length_append, ih,
      byteHex, List.length_cons, List.length_nil]
    omega

theorem hexAlphabet_getD_mem (i : Nat) (h : i < 16) :
    hexAlphabet.getD i 0 ∈ hexAlphabet := by
  interval_cases i <;> decide

theorem byteHex_mem (b c : Nat) (h : c ∈ byteHex b) : c ∈ hexAlphabet := by
  unfold byteHex at h
  simp only [List.mem_cons, List.not_mem_nil, or_false] at h
  rcases h with h | h <;> subst h <;>
    exact hexAlphabet_getD_mem _ (Nat.mod_lt _ (by decide))

theorem hexString_mem (bs : List Nat) (c : Nat) (h : c ∈ hexString bs) :
    c ∈ hexAlphabet := by
  unfold hexString at h
  simp only [List.mem_flatten, List.mem_map] at h
  obtain ⟨l, ⟨b, _, hl⟩, hc⟩ := h
  subst hl
  exact byteHex_mem b c hc

theorem MD5Data_model_isHex (b d : List Nat) (h : MD5Data_model b = some d) :
    IsHexDigest 16 d := by
  unfold MD5Data_model at h
  injection h with h
  subst h
  exact ⟨by rw [hexString_length, md5bytes_length],
    fun c hc => hexString_mem _ c hc⟩

theorem cstring_eq_self (d : List Nat) (h : ∀ c ∈ d, c ∈ hexAlphabet) :
    cstring d = d := by
  unfold cstring
  induction d with
  | nil => rfl
  | cons a t ih =>
    have ha : a ∈ hexAlphabet := h a (by simp)
    have hz : (a != 0) = true := by
      simp only [hexAlphabet, List.mem_cons, List.not_mem_nil, or_false] at ha
      rcases ha with h | h | h | h | h | h | h | h | h | h | h | h | h | h | h | h <;>
        subst h <;> decide
    rw [List.takeWhile_cons, hz]
    simp only [if_true]
    rw [ih (fun c hc => h c (by simp [hc]))]

theorem cstring_append_zero (xs ys : List Nat) :
    cstring (xs ++ 0 :: ys) = cstring xs := by
  unfold cstring
  induction xs with
  | nil => simp
  | cons a t ih =>
    rw [List.cons_append, List.takeWhile_cons, List.takeWhile_cons]
    cases h : (a != 0) <;> simp only [ih]

/-- Claim C6: for a primitive all of whose successful outputs are
2 n lowercase hex characters (which the spec guarantees for every
supported algorithm with native digest length n), every successful
dispatch, data or file, returns a host string of exactly that shape;
no other success result shape is possible. -/
theorem C6_success_shape (fn : DataPrim) (gn : FilePrim) (n : Nat)
    (v w : uc_value) (r : uc_value)
    (hfn : ∀ b d, fn b = some d → IsHexDigest n d)
    (hgn : ∀ b d, gn b = some d → IsHexDigest n d) :
    (uc_digest_calc_data v fn = some r →
      ∃ s, r = uc_value.vstring s ∧ IsHexDigest n s) ∧
    (uc_digest_calc_file w gn = some r →
      ∃ s, r = uc_value.vstring s ∧ IsHexDigest n s) := by
  constructor
  · intro h
    unfold uc_digest_calc_data at h
    by_cases ht : ucv_type v ≠ uc_type.UC_STRING
    · rw [if_pos ht] at h
      exact absurd h (by simp)
    · rw [if_neg ht] at h
      cases hd : fn ((ucv_string_get v).take (ucv_string_length v)) with
      | none => rw [hd] at h; exact absurd h (by simp)
      | some d =>
        rw [hd] at h
        have hhex := hfn _ _ hd
        injection h with h
        refine ⟨d, ?_, hhex⟩
        rw [← h]
        unfold ucv_string_new
        rw [cstring_eq_self d (fun c hc => hhex.2 c hc)]
  · intro h
    unfold uc_digest_calc_file at h
    by_cases ht : ucv_type w ≠ uc_type.UC_STRING
    · rw [if_pos ht] at h
      exact absurd h (by simp)
    · rw [if_neg ht] at h
      cases hd : gn (cstring (ucv_string_get w)) with
      | none => rw [hd] at h; exact absurd h (by simp)
      | some d =>
        rw [hd] at h
        have hhex := hgn _ _ hd
        injection h with h
        refine ⟨d, ?_, hhex⟩
        rw [← h]
        unfold ucv_string_new
        rw [cstring_eq_self d (fun c hc => hhex.2 c hc)]

set_option maxRecDepth 10000 in
/-- Witness for C6: the MD5 model digesting the empty string gives the
well-known empty-input digest, of the required 32-hex-character shape. -/
theorem C6_success_shape_witness :
    ∃ s, uc_value.vstring (asciiBytes "d41d8cd98f00b204e9800998ecf8427e")
      = uc_value.vstring s ∧ IsHexDigest 16 s := by
  refine (C6_success_shape MD5Data_model MD5Data_model 16
    (uc_value.vstring []) (uc_value.vstring [])
    (uc_value.vstring (asciiBytes "d41d8cd98f00b204e9800998ecf8427e"))
    MD5Data_model_isHex MD5Data_model_isHex).1 ?_
  decide

/-- Claim C7: module initialization registers the table entries in table
order, each exactly once: the registered list equals the table for both
build configurations, the names are pairwise distinct, the six base
names are always present (in table order), and the eight extended names
are present exactly in the extended build. -/
theorem C7_registration :
    uc_module_init false = global_fns false ∧
    uc_module_init true = global_fns true ∧
    (global_fns false).map Prod.fst = baseNames ∧
    (global_fns true).map Prod.fst = baseNames ++ extNames ∧
    ((global_fns false).map Prod.fst).Nodup ∧
    ((global_fns true).map Prod.fst).Nodup ∧
    extNames.all
      (fun n => !((global_fns false).map Prod.fst).contains n) = true := by
  refine ⟨rfl, rfl, rfl, rfl, ?_, ?_, rfl⟩ <;> decide

set_option maxRecDepth 10000 in
/-- Claim C8: the md5 function applied to the string argument
"This is a test" returns exactly its documented MD5 digest. -/
theorem C8_md5_test_vector (lib : DigestLib)
    (h : lib.MD5Data = MD5Data_model) :
    uc_digest_md5 lib [uc_value.vstring (asciiBytes "This is a test")]
      = some (uc_value.vstring
          (asciiBytes "ce114e4501d2f4e2dcea3e17b546f339")) := by
  unfold uc_digest_md5
  rw [h]
  decide

set_option maxRecDepth 10000 in
/-- Witness for C8 at the concrete library instance. -/
theorem C8_md5_test_vector_witness :
    uc_digest_md5 libmd_model
        [uc_value.vstring (asciiBytes "This is a test")]
      = some (uc_value.vstring
          (asciiBytes "ce114e4501d2f4e2dcea3e17b546f339")) :=
  C8_md5_test_vector libmd_model rfl

/-- Claim C9: every exposed handler called with zero arguments fetches a
NULL host value as argument 0, which is not string-tagged, and returns
NULL without crashing; arguments beyond the first never influence the
result. -/
theorem C9_arg_handling (lib : DigestLib) (id : FnId) :
    fn_impl lib id [] = none ∧
    ∀ (a : uc_value) (rest rest' : List uc_value),
      fn_impl lib id (a :: rest) = fn_impl lib id (a :: rest') := by
  cases id <;> exact ⟨rfl, fun a rest rest' => rfl⟩

/-- Claim C10: the file dispatcher hands the primitive the path as a
NUL-terminated C string, so only the bytes before the first zero byte
are visible and bytes after an embedded zero are ignored, while the data
dispatcher honours the explicit length and passes every byte. -/
theorem C10_path_nul_truncation (pb ys : List Nat) (fn : FilePrim) :
    uc_digest_calc_file (uc_value.vstring pb) fn
      = Option.map ucv_string_new (fn (cstring pb)) ∧
    uc_digest_calc_data (uc_value.vstring pb) fn
      = Option.map ucv_string_new (fn pb) ∧
    uc_digest_calc_file (uc_value.vstring (pb ++ 0 :: ys)) fn
      = Option.map ucv_string_new (fn (cstring pb)) := by
  refine ⟨?_, ?_, ?_⟩
  · unfold uc_digest_calc_file
    rw [if_neg (by simp [ucv_type])]
    simp only [ucv_string_get]
    cases fn (cstring pb) <;> rfl
  · unfold uc_digest_calc_data
    rw [if_neg (by simp [ucv_type])]
    simp only [ucv_string_get, ucv_string_length, List.take_length]
    cases fn pb <;> rfl
  · unfold uc_digest_calc_file
    rw [if_neg (by simp [ucv_type])]
    simp only [ucv_string_get, cstring_append_zero]
    cases fn (cstring pb) <;> rfl
